import Mathlib

/-!
Shallow embedding of the `tritet` crate (Rust sources `trigen.rs`, `tetgen.rs`,
`constants.rs`, `conversion.rs`, `trigen_paraview.rs`) together with theorems
about the input-assembly state machine, the node-ordering translation, the
Voronoi edge reconstruction and clipping, and the VTU export.

Machine integers are modelled as `Nat`/`Int` with explicit bounds; fallible
Rust code returns a `Res` value whose `panicked` constructor models a Rust
panic (e.g. `unwrap` on a failed `i32::try_from`, or an out-of-bounds array
index on a fixed-size constant table).  The native C/C++ engine is opaque to
the crate; where a claim depends on engine behaviour the engine's status
codes and output arrays are modelled from the spec and passed as explicit
oracles.
-/

namespace Tritet

/-- Largest value of a Rust `i32`. -/
def I32_MAX : ℕ := 2147483647

/-- Result of running a piece of Rust code: a panic, an `Err(msg)`, or `Ok`. -/
inductive Res (α : Type) where
  | panicked : Res α
  | err (msg : String) : Res α
  | ok (val : α) : Res α
  deriving Repr, DecidableEq

/-- Sequencing of fallible Rust computations (`?` plus panic propagation). -/
def Res.bind {α β : Type} : Res α → (α → Res β) → Res β
  | .panicked, _ => .panicked
  | .err e, _ => .err e
  | .ok a, f => f a

/-- Fold with early exit on error or panic (the semantics of a Rust `for`
loop whose body uses `?`). -/
def res_foldl {α β : Type} (f : β → α → Res β) : β → List α → Res β
  | b, [] => .ok b
  | b, a :: l => (f b a).bind fun b' => res_foldl f b' l

/-- `conversion.rs`: `to_i32` is `i32::try_from(num).unwrap()`; the `unwrap`
panics whenever `num` exceeds `i32::MAX`, so the result is an `Option`. -/
def to_i32 (num : ℕ) : Option ℤ :=
  if num ≤ I32_MAX then some (num : ℤ) else none

/-- Evaluates `to_i32` and continues with the converted value, propagating the
panic of the failed `unwrap`. -/
def reqI32 {α : Type} (n : ℕ) (k : ℤ → Res α) : Res α :=
  match to_i32 n with
  | none => .panicked
  | some v => k v

/-! ### Status codes from `constants.rs` -/

def TRITET_SUCCESS : ℤ := 0
def TRITET_ERROR_NULL_DATA : ℤ := 10
def TRITET_ERROR_STRING_CONCAT : ℤ := 20
def TRITET_ERROR_NULL_POINT_LIST : ℤ := 100
def TRITET_ERROR_NULL_SEGMENT_LIST : ℤ := 200
def TRITET_ERROR_NULL_REGION_LIST : ℤ := 500
def TRITET_ERROR_NULL_HOLE_LIST : ℤ := 600
def TRITET_ERROR_INVALID_POINT_INDEX : ℤ := 1000
def TRITET_ERROR_INVALID_SEGMENT_INDEX : ℤ := 2000
def TRITET_ERROR_INVALID_SEGMENT_POINT_ID : ℤ := 3000
def TRITET_ERROR_INVALID_FACET_INDEX : ℤ := 4000
def TRITET_ERROR_INVALID_FACET_POINT_INDEX : ℤ := 5000
def TRITET_ERROR_INVALID_FACET_POINT_ID : ℤ := 6000
def TRITET_ERROR_INVALID_REGION_INDEX : ℤ := 7000
def TRITET_ERROR_INVALID_HOLE_INDEX : ℤ := 8000

/-! ### Node-ordering translation tables from `constants.rs` -/

/-- `TRITET_TO_TRIANGLE`: maps tritet local node indices to Triangle corners. -/
def TRITET_TO_TRIANGLE : List ℕ := [0, 1, 2, 5, 3, 4]

/-- `TRITET_TO_TETGEN`: maps tritet local node indices to Tetgen corners. -/
def TRITET_TO_TETGEN : List ℕ := [0, 1, 2, 3, 6, 7, 9, 5, 8, 4]

/-! ### Trigen: builder state (`trigen.rs`, struct `Trigen`) -/

/-- The bookkeeping fields of the Rust `Trigen` struct (the opaque native
handle `ext_trigen` is not part of the bookkeeping state). -/
structure TrigenState where
  npoint : ℕ
  nsegment : Option ℕ
  nregion : Option ℕ
  nhole : Option ℕ
  all_points_set : Bool
  all_segments_set : Bool
  all_regions_set : Bool
  all_holes_set : Bool
  deriving Repr, DecidableEq

/-- Modelled from the spec: the status code of the native `tri_set_point`
(the C sources `interface_triangle.c` are not among the Rust sources); per
the spec the call fails with an invalid-point-index status iff the index is
not below the declared point capacity. -/
def tri_set_point_status (npoint : ℕ) (index : ℤ) : ℤ :=
  if index < (npoint : ℤ) then TRITET_SUCCESS else TRITET_ERROR_INVALID_POINT_INDEX

/-- Modelled from the spec: the status code of the native `tri_set_segment`;
it validates the segment index against the declared segment capacity and each
endpoint id against the declared point capacity. -/
def tri_set_segment_status (npoint nsegment : ℕ) (index a b : ℤ) : ℤ :=
  if index < (nsegment : ℤ) then
    if a < (npoint : ℤ) ∧ b < (npoint : ℤ) then TRITET_SUCCESS
    else TRITET_ERROR_INVALID_SEGMENT_POINT_ID
  else TRITET_ERROR_INVALID_SEGMENT_INDEX

/-- Modelled from the spec: the status code of the native `tri_set_region`;
it validates the region index against the declared region capacity. -/
def tri_set_region_status (nregion : ℕ) (index : ℤ) : ℤ :=
  if index < (nregion : ℤ) then TRITET_SUCCESS else TRITET_ERROR_INVALID_REGION_INDEX

/-- Modelled from the spec: the status code of the native `tri_set_hole`;
it validates the hole index against the declared hole capacity. -/
def tri_set_hole_status (nhole : ℕ) (index : ℤ) : ℤ :=
  if index < (nhole : ℤ) then TRITET_SUCCESS else TRITET_ERROR_INVALID_HOLE_INDEX

/-- `Trigen::new`: capacity validation, i32 conversions (which panic above
`i32::MAX`), then the native allocation whose success is the `alloc_ok`
oracle (a null return becomes an internal error). -/
def Trigen.new (npoint : ℕ) (nsegment nregion nhole : Option ℕ) (alloc_ok : Bool) :
    Res TrigenState :=
  if npoint < 3 then .err "npoint must be ≥ 3"
  else
    let seg_check : Res Unit :=
      match nsegment with
      | some ns => if ns < 3 then .err "nsegment must be ≥ 3" else .ok ()
      | none => .ok ()
    seg_check.bind fun _ =>
    reqI32 npoint fun _ =>
    reqI32 (nsegment.getD 0) fun _ =>
    reqI32 (nregion.getD 0) fun _ =>
    reqI32 (nhole.getD 0) fun _ =>
    if alloc_ok then
      .ok { npoint := npoint, nsegment := nsegment, nregion := nregion, nhole := nhole,
            all_points_set := false, all_segments_set := false,
            all_regions_set := false, all_holes_set := false }
    else .err "INTERNAL ERROR: cannot allocate ExtTriangle"

/-- `Trigen::set_point`: native call, status translation, then the completion
flag update `all_points_set = (index == npoint - 1)`. -/
def Trigen.set_point (s : TrigenState) (index : ℕ) (_marker : ℤ) (_x _y : ℚ) :
    Res TrigenState :=
  reqI32 index fun index_i32 =>
  let status := tri_set_point_status s.npoint index_i32
  if status ≠ TRITET_SUCCESS then
    if status = TRITET_ERROR_NULL_DATA then .err "INTERNAL ERROR: found NULL data"
    else if status = TRITET_ERROR_NULL_POINT_LIST then .err "INTERNAL ERROR: found NULL point list"
    else if status = TRITET_ERROR_INVALID_POINT_INDEX then .err "index of point is out of bounds"
    else .err "INTERNAL ERROR: some error occurred"
  else
    .ok { s with all_points_set := index == s.npoint - 1 }

/-- `Trigen::set_segment`: capability check, native call, status translation,
then the flag update `all_segments_set = (index == nsegment - 1)`. -/
def Trigen.set_segment (s : TrigenState) (index : ℕ) (_marker : ℤ) (a b : ℕ) :
    Res TrigenState :=
  match s.nsegment with
  | none => .err "cannot set segment because the number of segments is None"
  | some nsegment =>
    reqI32 index fun index_i32 =>
    reqI32 a fun a_i32 =>
    reqI32 b fun b_i32 =>
    let status := tri_set_segment_status s.npoint nsegment index_i32 a_i32 b_i32
    if status ≠ TRITET_SUCCESS then
      if status = TRITET_ERROR_NULL_DATA then .err "INTERNAL ERROR: found NULL data"
      else if status = TRITET_ERROR_NULL_SEGMENT_LIST then
        .err "INTERNAL ERROR: found NULL segment list"
      else if status = TRITET_ERROR_INVALID_SEGMENT_INDEX then
        .err "index of segment is out of bounds"
      else if status = TRITET_ERROR_INVALID_SEGMENT_POINT_ID then
        .err "id of segment point is out of bounds"
      else .err "INTERNAL ERROR: some error occurred"
    else
      .ok { s with all_segments_set := index == nsegment - 1 }

/-- `Trigen::set_region`: capability check, native call (both `index` and
`attribute` go through `to_i32`), status translation, then the flag update
`all_regions_set = (index == nregion - 1)`. -/
def Trigen.set_region (s : TrigenState) (index attrib : ℕ) (_x _y : ℚ)
    (_max_area : Option ℚ) : Res TrigenState :=
  match s.nregion with
  | none => .err "cannot set region because the number of regions is None"
  | some nregion =>
    reqI32 index fun index_i32 =>
    reqI32 attrib fun _ =>
    let status := tri_set_region_status nregion index_i32
    if status ≠ TRITET_SUCCESS then
      if status = TRITET_ERROR_NULL_DATA then .err "INTERNAL ERROR: found NULL data"
      else if status = TRITET_ERROR_NULL_REGION_LIST then
        .err "INTERNAL ERROR: found NULL region list"
      else if status = TRITET_ERROR_INVALID_REGION_INDEX then
        .err "index of region is out of bounds"
      else .err "INTERNAL ERROR: some error occurred"
    else
      .ok { s with all_regions_set := index == nregion - 1 }

/-- `Trigen::set_hole`: capability check, native call, status translation,
then the flag update `all_holes_set = (index == nhole - 1)`. -/
def Trigen.set_hole (s : TrigenState) (index : ℕ) (_x _y : ℚ) : Res TrigenState :=
  match s.nhole with
  | none => .err "cannot set hole because the number of holes is None"
  | some nhole =>
    reqI32 index fun index_i32 =>
    let status := tri_set_hole_status nhole index_i32
    if status ≠ TRITET_SUCCESS then
      if status = TRITET_ERROR_NULL_DATA then .err "INTERNAL ERROR: found NULL data"
      else if status = TRITET_ERROR_NULL_HOLE_LIST then
        .err "INTERNAL ERROR: found NULL hole list"
      else if status = TRITET_ERROR_INVALID_HOLE_INDEX then
        .err "index of hole is out of bounds"
      else .err "INTERNAL ERROR: some error occurred"
    else
      .ok { s with all_holes_set := index == nhole - 1 }

/-! ### Tetgen: builder state (`tetgen.rs`, struct `Tetgen`) -/

/-- The bookkeeping fields of the Rust `Tetgen` struct. -/
structure TetgenState where
  npoint : ℕ
  facet_npoint : Option (List ℕ)
  total_facet_npoint : ℕ
  facet_point_set_count : ℕ
  nregion : Option ℕ
  nhole : Option ℕ
  all_points_set : Bool
  all_facets_set : Bool
  all_regions_set : Bool
  all_holes_set : Bool
  deriving Repr, DecidableEq

/-- Modelled from the spec: `handle_status` (defined in the richer version of
`constants.rs`, which is not among the sources) maps the native status code
to `Ok(())` exactly for the success code and to an error otherwise. -/
def handle_status (status : ℤ) : Res Unit :=
  if status = TRITET_SUCCESS then .ok () else .err "ERROR: native function failed"

/-- Modelled from the spec: the status code of the native `tet_set_point`;
fails iff the index is not below the declared point capacity. -/
def tet_set_point_status (npoint : ℕ) (index : ℤ) : ℤ :=
  if index < (npoint : ℤ) then TRITET_SUCCESS else TRITET_ERROR_INVALID_POINT_INDEX

/-- Modelled from the spec: the status code of the native `tet_set_facet_point`;
it validates, in order, the facet index against the declared facet count, the
local corner index against that facet's declared arity, and the referenced
point id against the declared point capacity. -/
def tet_set_facet_point_status (fnp : List ℕ) (npoint index m p : ℕ) : ℤ :=
  if h : index < fnp.length then
    if m < fnp.get ⟨index, h⟩ then
      if p < npoint then TRITET_SUCCESS else TRITET_ERROR_INVALID_FACET_POINT_ID
    else TRITET_ERROR_INVALID_FACET_POINT_INDEX
  else TRITET_ERROR_INVALID_FACET_INDEX

/-- Modelled from the spec: the status code of the native `tet_set_facet_marker`;
fails iff the facet index is not below the declared facet count. -/
def tet_set_facet_marker_status (nfacet : ℕ) (index : ℤ) : ℤ :=
  if index < (nfacet : ℤ) then TRITET_SUCCESS else TRITET_ERROR_INVALID_FACET_INDEX

/-- Modelled from the spec: the status code of the native `tet_set_region`. -/
def tet_set_region_status (nregion : ℕ) (index : ℤ) : ℤ :=
  if index < (nregion : ℤ) then TRITET_SUCCESS else TRITET_ERROR_INVALID_REGION_INDEX

/-- Modelled from the spec: the status code of the native `tet_set_hole`. -/
def tet_set_hole_status (nhole : ℕ) (index : ℤ) : ℤ :=
  if index < (nhole : ℤ) then TRITET_SUCCESS else TRITET_ERROR_INVALID_HOLE_INDEX

/-- The facet loop of `Tetgen::new`: rejects an arity below 3, accumulates the
total corner-point count, and converts each arity to i32 (panicking above
`i32::MAX`). -/
def tet_facet_scan : List ℕ → ℕ → Res ℕ
  | [], total => .ok total
  | f :: rest, total =>
    if f < 3 then .err "facet npoint must be ≥ 3"
    else
      match to_i32 f with
      | none => .panicked
      | some _ => tet_facet_scan rest (total + f)

/-- `Tetgen::new`: validates `npoint ≥ 4`, converts `npoint`, then (when a
facet spec is given) converts the facet count, requires it to be at least 4
and scans the arities; finally converts the region and hole counts and
allocates the native instance (`alloc_ok` oracle). -/
def Tetgen.new (npoint : ℕ) (facet_npoint : Option (List ℕ)) (nregion nhole : Option ℕ)
    (alloc_ok : Bool) : Res TetgenState :=
  if npoint < 4 then .err "npoint must be ≥ 4"
  else
    reqI32 npoint fun _ =>
    let scanned : Res ℕ :=
      match facet_npoint with
      | none => .ok 0
      | some facets =>
        reqI32 facets.length fun _ =>
        if facets.length < 4 then .err "nfacet must be ≥ 4"
        else tet_facet_scan facets 0
    scanned.bind fun total =>
    reqI32 (nregion.getD 0) fun _ =>
    reqI32 (nhole.getD 0) fun _ =>
    if alloc_ok then
      .ok { npoint := npoint, facet_npoint := facet_npoint,
            total_facet_npoint := total, facet_point_set_count := 0,
            nregion := nregion, nhole := nhole,
            all_points_set := false, all_facets_set := false,
            all_regions_set := false, all_holes_set := false }
    else .err "INTERNAL ERROR: cannot allocate ExtTetgen"

/-- `Tetgen::set_point`: native call through `handle_status`, then the flag
update `all_points_set = (index == npoint - 1)`. -/
def Tetgen.set_point (s : TetgenState) (index : ℕ) (_marker : ℤ) (_x _y _z : ℚ) :
    Res TetgenState :=
  reqI32 index fun index_i32 =>
  (handle_status (tet_set_point_status s.npoint index_i32)).bind fun _ =>
  .ok { s with all_points_set := index == s.npoint - 1 }

/-- `Tetgen::set_facet_point`: capability check, native call, then the running
count: the count is reset to zero when `index == 0 && m == 0`, incremented on
every successful call, and `all_facets_set` is latched to `true` when the
count reaches `total_facet_npoint`. -/
def Tetgen.set_facet_point (s : TetgenState) (index m p : ℕ) : Res TetgenState :=
  match s.facet_npoint with
  | none => .err "cannot set facet point because facet_npoint is None"
  | some fnp =>
    reqI32 index fun _ =>
    reqI32 m fun _ =>
    reqI32 p fun _ =>
    (handle_status (tet_set_facet_point_status fnp s.npoint index m p)).bind fun _ =>
    let count0 := if index = 0 ∧ m = 0 then 0 else s.facet_point_set_count
    let count1 := count0 + 1
    .ok { s with
          facet_point_set_count := count1,
          all_facets_set := if count1 = s.total_facet_npoint then true else s.all_facets_set }

/-- `Tetgen::set_facet_marker`: capability check and native call only; no
bookkeeping field is written. -/
def Tetgen.set_facet_marker (s : TetgenState) (index : ℕ) (_marker : ℤ) :
    Res TetgenState :=
  match s.facet_npoint with
  | none => .err "cannot set facet marker because facet_npoint is None"
  | some fnp =>
    reqI32 index fun index_i32 =>
    (handle_status (tet_set_facet_marker_status fnp.length index_i32)).bind fun _ =>
    .ok s

/-- `Tetgen::set_region`: capability check, native call, then the flag update
`all_regions_set = (index == nregion - 1)`. -/
def Tetgen.set_region (s : TetgenState) (index attrib : ℕ) (_x _y _z : ℚ)
    (_max_volume : Option ℚ) : Res TetgenState :=
  match s.nregion with
  | none => .err "cannot set region because the number of regions is None"
  | some nregion =>
    reqI32 index fun index_i32 =>
    reqI32 attrib fun _ =>
    (handle_status (tet_set_region_status nregion index_i32)).bind fun _ =>
    .ok { s with all_regions_set := index == nregion - 1 }

/-- `Tetgen::set_hole`: capability check, native call, then the flag update
`all_holes_set = (index == nhole - 1)`. -/
def Tetgen.set_hole (s : TetgenState) (index : ℕ) (_x _y _z : ℚ) : Res TetgenState :=
  match s.nhole with
  | none => .err "cannot set hole because the number of holes is None"
  | some nhole =>
    reqI32 index fun index_i32 =>
    (handle_status (tet_set_hole_status nhole index_i32)).bind fun _ =>
    .ok { s with all_holes_set := index == nhole - 1 }

/-! ### Generation entry points

Each generation method takes the builder by shared reference (`&self`); its
embedding returns the outcome paired with the receiver state, which the Rust
borrow discipline leaves unchanged.  The outcome distinguishes an error
returned by the precondition checks (before any native call) from an invoked
native engine run, whose status code is an oracle argument. -/

/-- Outcome of a generation call: a precondition error raised before the
native engine is invoked, or the translated result of the engine run. -/
inductive GenOutcome where
  | precond (msg : String) : GenOutcome
  | engine (result : Res Unit) : GenOutcome
  deriving Repr, DecidableEq

/-- Status translation of `tri_run_delaunay` in `Trigen::generate_delaunay`. -/
def tri_run_delaunay_result (status : ℤ) : Res Unit :=
  if status ≠ TRITET_SUCCESS then
    if status = TRITET_ERROR_NULL_DATA then .err "INTERNAL ERROR: found NULL data"
    else if status = TRITET_ERROR_NULL_POINT_LIST then
      .err "INTERNAL ERROR: found NULL point list"
    else .err "INTERNAL ERROR: some error occurred"
  else .ok ()

/-- `Trigen::generate_delaunay`. -/
def Trigen.generate_delaunay (s : TrigenState) (status : ℤ) : GenOutcome × TrigenState :=
  (if ¬ s.all_points_set then
    .precond "cannot generate Delaunay triangulation because not all points are set"
  else .engine (tri_run_delaunay_result status), s)

/-- `Trigen::generate_voronoi`. -/
def Trigen.generate_voronoi (s : TrigenState) (status : ℤ) : GenOutcome × TrigenState :=
  (if ¬ s.all_points_set then
    .precond "cannot generate Voronoi tessellation because not all points are set"
  else .engine (tri_run_delaunay_result status), s)

/-- Status translation of `tri_run_triangulate` in `Trigen::generate_mesh`. -/
def tri_run_triangulate_result (status : ℤ) : Res Unit :=
  if status ≠ TRITET_SUCCESS then
    if status = TRITET_ERROR_NULL_DATA then .err "INTERNAL ERROR: found NULL data"
    else if status = TRITET_ERROR_NULL_POINT_LIST then
      .err "INTERNAL ERROR: found NULL point list"
    else if status = TRITET_ERROR_NULL_SEGMENT_LIST then
      .err "INTERNAL ERROR: list of segments must be defined first"
    else if status = TRITET_ERROR_STRING_CONCAT then
      .err "INTERNAL ERROR: cannot write string with commands for Triangle"
    else .err "INTERNAL ERROR: some error occurred"
  else .ok ()

/-- `Trigen::generate_mesh`: requires all points and all segments set before
calling the native `tri_run_triangulate`. -/
def Trigen.generate_mesh (s : TrigenState) (status : ℤ) : GenOutcome × TrigenState :=
  (if ¬ s.all_points_set then
    .precond "cannot generate mesh of triangles because not all points are set"
  else if ¬ s.all_segments_set then
    .precond "cannot generate mesh of triangles because not all segments are set"
  else .engine (tri_run_triangulate_result status), s)

/-- `Tetgen::generate_delaunay`. -/
def Tetgen.generate_delaunay (s : TetgenState) (status : ℤ) : GenOutcome × TetgenState :=
  (if ¬ s.all_points_set then
    .precond "cannot generate Delaunay tetrahedralization because not all points are set"
  else .engine (handle_status status), s)

/-- `Tetgen::generate_mesh`: requires all points and all facets set before
calling the native `tet_run_tetrahedralize`. -/
def Tetgen.generate_mesh (s : TetgenState) (status : ℤ) : GenOutcome × TetgenState :=
  (if ¬ s.all_points_set then
    .precond "cannot generate mesh of tetrahedra because not all points are set"
  else if ¬ s.all_facets_set then
    .precond "cannot generate mesh of tetrahedra because not all facets are set"
  else .engine (handle_status status), s)

/-! ### Output model

The engine-owned output arrays are an oracle record; the spec states that the
native accessors return `0`/`0.0` for any out-of-range index, so the oracle
functions are total.  The Rust-side accessors convert every index with
`to_i32` (panicking above `i32::MAX`) and `Trigen::out_cell_point` /
`Tetgen::out_cell_point` additionally index a fixed-size constant table,
panicking when the local node index is not below the table length. -/

/-- Rust `i32 as usize` (sign extension to 64 bits, reinterpreted). -/
def usize_of_i32 (v : ℤ) : ℕ := (v % (2 : ℤ) ^ 64).toNat

/-- Modelled from the spec: the 2D engine's output arrays (owned by the C
code, which is not among the Rust sources); out-of-range reads yield zero,
hence total functions. -/
structure TriOut where
  npoint : ℕ
  ncell : ℕ
  cell_npoint : ℕ
  point : ℕ → ℕ → ℚ
  point_marker : ℕ → ℤ
  cell_point : ℕ → ℕ → ℤ
  cell_attribute : ℕ → ℤ
  voronoi_npoint : ℕ
  voronoi_point : ℕ → ℕ → ℚ
  voronoi_nedge : ℕ
  voronoi_edge_point : ℕ → ℕ → ℤ
  voronoi_edge_point_b_direction : ℕ → ℕ → ℚ

/-- Modelled from the spec: the 3D engine's output arrays. -/
structure TetOut where
  npoint : ℕ
  ncell : ℕ
  cell_npoint : ℕ
  point : ℕ → ℕ → ℚ
  point_marker : ℕ → ℤ
  cell_point : ℕ → ℕ → ℤ
  cell_attribute : ℕ → ℤ

/-- `Trigen::out_point`. -/
def Trigen.out_point (o : TriOut) (index dim : ℕ) : Res ℚ :=
  reqI32 index fun _ => reqI32 dim fun _ => .ok (o.point index dim)

/-- `Trigen::out_point_marker`. -/
def Trigen.out_point_marker (o : TriOut) (index : ℕ) : Res ℤ :=
  reqI32 index fun _ => .ok (o.point_marker index)

/-- `Trigen::out_cell_point`: reads `TRITET_TO_TRIANGLE[m]` (a fixed-size
array indexing that panics for `m ≥ 6`) and then the native connectivity at
the translated corner, cast `as usize`. -/
def Trigen.out_cell_point (o : TriOut) (index m : ℕ) : Res ℕ :=
  if h : m < TRITET_TO_TRIANGLE.length then
    let corner := TRITET_TO_TRIANGLE.get ⟨m, h⟩
    reqI32 index fun _ => reqI32 corner fun _ =>
    .ok (usize_of_i32 (o.cell_point index corner))
  else .panicked

/-- `Trigen::out_cell_attribute`. -/
def Trigen.out_cell_attribute (o : TriOut) (index : ℕ) : Res ℕ :=
  reqI32 index fun _ => .ok (usize_of_i32 (o.cell_attribute index))

/-- `Trigen::out_voronoi_point`. -/
def Trigen.out_voronoi_point (o : TriOut) (index dim : ℕ) : Res ℚ :=
  reqI32 index fun _ => reqI32 dim fun _ => .ok (o.voronoi_point index dim)

/-- `Trigen::out_voronoi_edge_point_a`. -/
def Trigen.out_voronoi_edge_point_a (o : TriOut) (index : ℕ) : Res ℕ :=
  reqI32 index fun _ => .ok (usize_of_i32 (o.voronoi_edge_point index 0))

/-- `VoronoiEdgePoint` from `trigen.rs`. -/
inductive VoronoiEdgePoint where
  | Index (id : ℕ) : VoronoiEdgePoint
  | Direction (dx dy : ℚ) : VoronoiEdgePoint
  deriving Repr, DecidableEq

/-- `Trigen::out_voronoi_edge_point_b`: reads the second-point field; the
sentinel `-1` selects the companion direction accessor (`Direction`), any
other value is cast `as usize` (`Index`). -/
def Trigen.out_voronoi_edge_point_b (o : TriOut) (index : ℕ) : Res VoronoiEdgePoint :=
  reqI32 index fun _ =>
  let id := o.voronoi_edge_point index 1
  if id = -1 then
    .ok (.Direction (o.voronoi_edge_point_b_direction index 0)
                    (o.voronoi_edge_point_b_direction index 1))
  else
    .ok (.Index (usize_of_i32 id))

/-- `Tetgen::out_point`. -/
def Tetgen.out_point (o : TetOut) (index dim : ℕ) : Res ℚ :=
  reqI32 index fun _ => reqI32 dim fun _ => .ok (o.point index dim)

/-- `Tetgen::out_point_marker`. -/
def Tetgen.out_point_marker (o : TetOut) (index : ℕ) : Res ℤ :=
  reqI32 index fun _ => .ok (o.point_marker index)

/-- `Tetgen::out_cell_point`: reads `TRITET_TO_TETGEN[m]` (panics for
`m ≥ 10`) and then the native connectivity at the translated corner. -/
def Tetgen.out_cell_point (o : TetOut) (index m : ℕ) : Res ℕ :=
  if h : m < TRITET_TO_TETGEN.length then
    let corner := TRITET_TO_TETGEN.get ⟨m, h⟩
    reqI32 index fun _ => reqI32 corner fun _ =>
    .ok (usize_of_i32 (o.cell_point index corner))
  else .panicked

/-- `Tetgen::out_cell_attribute`. -/
def Tetgen.out_cell_attribute (o : TetOut) (index : ℕ) : Res ℕ :=
  reqI32 index fun _ => .ok (usize_of_i32 (o.cell_attribute index))

/-! ### Voronoi ray clipping (`Trigen::draw_voronoi`) -/

/-- The `Direction` branch of `Trigen::draw_voronoi`: per-axis parametric
value (`0.0` when the direction component is zero), the smaller of the two,
and the clipped endpoint, emitted only when that value is positive. -/
def clip_ray (xmin xmax ymin ymax xa ya dx dy : ℚ) : Option (ℚ × ℚ) :=
  let mx := if 0 < dx then (xmax - xa) / dx else if dx < 0 then (xmin - xa) / dx else 0
  let my := if 0 < dy then (ymax - ya) / dy else if dy < 0 then (ymin - ya) / dy else 0
  let m := if mx < my then mx else my
  if 0 < m then some (xa + m * dx, ya + m * dy) else none

/-- Modelled from the spec (for comparison with `clip_ray`): an axis with
zero direction component contributes no constraint; the clip parameter is
the minimum of the positive per-axis parametric distances; with no positive
distance on either axis the ray is not drawn. -/
def clip_ray_spec (xmin xmax ymin ymax xa ya dx dy : ℚ) : Option (ℚ × ℚ) :=
  let tx : Option ℚ :=
    if 0 < dx then some ((xmax - xa) / dx)
    else if dx < 0 then some ((xmin - xa) / dx) else none
  let ty : Option ℚ :=
    if 0 < dy then some ((ymax - ya) / dy)
    else if dy < 0 then some ((ymin - ya) / dy) else none
  let pos := ([tx, ty].filterMap id).filter fun t => decide (0 < t)
  match pos with
  | [] => none
  | t0 :: rest =>
    let t := rest.foldl min t0
    some (xa + t * dx, ya + t * dy)

/-- `f64::MAX` as an exact rational: `(2^53 - 1) * 2^971`, written as a
numeral so that comparisons against it evaluate. -/
def F64_MAX : ℚ := 179769313486231570814527423731704356798070567525844996598917476803157260780028538760589558632766878171540458953514382464234321326889464182768467546703537516986049910576551282076245490090389328944075868508455133942304583236903222948165808559332123348274797826204144723168738177180919299881250404026184124858368

/-- `f64::MIN = -f64::MAX`. -/
def F64_MIN : ℚ := -F64_MAX

/-- Axis-aligned bounding box carried by `Trigen::draw_voronoi` as the
`min`/`max` arrays. -/
structure BBox where
  minx : ℚ
  maxx : ℚ
  miny : ℚ
  maxy : ℚ
  deriving Repr, DecidableEq

/-- First loop of `Trigen::draw_voronoi`: folds every output point into the
bounding box. -/
def Trigen.draw_voronoi_box_points (o : TriOut) (b : BBox) : Res BBox :=
  res_foldl (fun b p =>
    (Trigen.out_point o p 0).bind fun x =>
    (Trigen.out_point o p 1).bind fun y =>
    .ok { minx := min b.minx x, maxx := max b.maxx x,
          miny := min b.miny y, maxy := max b.maxy y }) b (List.range o.npoint)

/-- Second loop of `Trigen::draw_voronoi`: folds every Voronoi vertex into
the bounding box. -/
def Trigen.draw_voronoi_box_vertices (o : TriOut) (b : BBox) : Res BBox :=
  res_foldl (fun b q =>
    (Trigen.out_voronoi_point o q 0).bind fun x =>
    (Trigen.out_voronoi_point o q 1).bind fun y =>
    .ok { minx := min b.minx x, maxx := max b.maxx x,
          miny := min b.miny y, maxy := max b.maxy y }) b (List.range o.voronoi_npoint)

/-- Edge loop of `Trigen::draw_voronoi`: a bounded edge contributes the
segment between its two Voronoi vertices; a ray is clipped by `clip_ray`
against the current box and, when drawn, its endpoint is folded back into
the box. -/
def Trigen.draw_voronoi_edges (o : TriOut) :
    List ℕ → BBox → List ((ℚ × ℚ) × (ℚ × ℚ)) → Res (BBox × List ((ℚ × ℚ) × (ℚ × ℚ)))
  | [], b, segs => .ok (b, segs)
  | e :: rest, b, segs =>
    (Trigen.out_voronoi_edge_point_a o e).bind fun a =>
    (Trigen.out_voronoi_point o a 0).bind fun xa =>
    (Trigen.out_voronoi_point o a 1).bind fun ya =>
    (Trigen.out_voronoi_edge_point_b o e).bind fun bp =>
    match bp with
    | .Index bidx =>
      (Trigen.out_voronoi_point o bidx 0).bind fun xb =>
      (Trigen.out_voronoi_point o bidx 1).bind fun yb =>
      Trigen.draw_voronoi_edges o rest b (segs ++ [((xa, ya), (xb, yb))])
    | .Direction dx dy =>
      match clip_ray b.minx b.maxx b.miny b.maxy xa ya dx dy with
      | some (xb, yb) =>
        Trigen.draw_voronoi_edges o rest
          { minx := min b.minx xb, maxx := max b.maxx xb,
            miny := min b.miny yb, maxy := max b.maxy yb }
          (segs ++ [((xa, ya), (xb, yb))])
      | none => Trigen.draw_voronoi_edges o rest b segs

/-- The geometric content of `Trigen::draw_voronoi`: the list of segments
added to the canvas (markers, colors and the plot object carry no geometric
information and are omitted). -/
def Trigen.draw_voronoi_segments (o : TriOut) : Res (List ((ℚ × ℚ) × (ℚ × ℚ))) :=
  if o.voronoi_npoint < 1 ∨ o.voronoi_nedge < 1 then .ok []
  else
    (Trigen.draw_voronoi_box_points o
        { minx := F64_MAX, maxx := F64_MIN, miny := F64_MAX, maxy := F64_MIN }).bind fun b1 =>
    (Trigen.draw_voronoi_box_vertices o b1).bind fun b2 =>
    (Trigen.draw_voronoi_edges o (List.range o.voronoi_nedge) b2 []).bind fun r =>
    .ok r.2

/-! ### Decimal formatting (Rust `{}` and `{:?}` as used by `write_vtu`) -/

/-- ASCII digit. -/
def digit_char (d : ℕ) : Char := Char.ofNat (48 + d)

/-- Fueled most-significant-first digit expansion. -/
def fmt_nat_aux : ℕ → ℕ → List Char → List Char
  | 0, _, acc => acc
  | fuel + 1, n, acc =>
    if n < 10 then digit_char n :: acc
    else fmt_nat_aux fuel (n / 10) (digit_char (n % 10) :: acc)

/-- Decimal rendering of a natural number (Rust `Display` for integers). -/
def fmt_nat (n : ℕ) : String := String.mk (fmt_nat_aux (n + 1) n [])

/-- Smallest `k ≤ 63` with `den ∣ 10 ^ k`; every value of an `f64` has a
power-of-two denominator, for which such a `k` exists. -/
def find_dec_exp (den : ℕ) : Option ℕ :=
  (List.range 64).find? fun k => decide (10 ^ k % den = 0)

/-- Rust `{:?}` (Debug) rendering of an `f64` holding an exactly
representable terminating decimal: integer part, a point, and the fractional
digits with trailing zeros removed (at least one digit on each side, so `0`
prints as `0.0`). -/
def fmt_f64 (q : ℚ) : String :=
  let sign := if q < 0 then "-" else ""
  let n := q.num.natAbs
  match find_dec_exp q.den with
  | some k =>
    let m := n * 10 ^ k / q.den
    let ip := m / 10 ^ k
    let fs := fmt_nat (m % 10 ^ k)
    let fpad := String.mk (List.replicate (k - fs.length) '0') ++ fs
    let ftrimL := (fpad.toList.reverse.dropWhile (fun c => c = '0')).reverse
    let frac := if ftrimL.isEmpty then "0" else String.mk ftrimL
    sign ++ fmt_nat ip ++ "." ++ frac
  | none => sign ++ fmt_nat n ++ "/" ++ fmt_nat q.den

/-! ### VTU export (`trigen_paraview.rs`, `Trigen::write_vtu`) -/

/-- Modelled from the spec: VTK cell-type code for a linear triangle (the
`constants.rs` version defining it is not among the sources; the repository
test and the spec's fixed export text pin the value 5). -/
def VTK_TRIANGLE : ℕ := 5

/-- Modelled from the spec: VTK cell-type code for a quadratic triangle (the
repository test pins the value 22). -/
def VTK_QUADRATIC_TRIANGLE : ℕ := 22

/-- The in-memory buffer assembled by `Trigen::write_vtu` before it is
written to disk (the filesystem part is outside the model): header, point
coordinates (`{:?} {:?} 0.0 ` per point), connectivity in translated order,
cumulative offsets, and cell-type codes, each as space-terminated tokens. -/
def Trigen.write_vtu_buffer (o : TriOut) : Res String :=
  if o.ncell < 1 then .err "there are no triangles to write"
  else
    let ntriangle := o.ncell
    let npoint := o.npoint
    let nnode := o.cell_npoint
    let vtk_type := if nnode = 3 then VTK_TRIANGLE else VTK_QUADRATIC_TRIANGLE
    let header :=
      "<?xml version=\"1.0\"?>\n<VTKFile type=\"UnstructuredGrid\" version=\"0.1\" byte_order=\"LittleEndian\">\n<UnstructuredGrid>\n<Piece NumberOfPoints=\""
        ++ fmt_nat npoint ++ "\" NumberOfCells=\"" ++ fmt_nat ntriangle ++ "\">\n"
    let points_open :=
      "<Points>\n<DataArray type=\"Float64\" NumberOfComponents=\"3\" format=\"ascii\">\n"
    (res_foldl (fun acc index =>
        (Trigen.out_point o index 0).bind fun x =>
        (Trigen.out_point o index 1).bind fun y =>
        .ok (acc ++ fmt_f64 x ++ " " ++ fmt_f64 y ++ " 0.0 "))
      (header ++ points_open) (List.range npoint)).bind fun buf1 =>
    let buf2 := buf1 ++
      "\n</DataArray>\n</Points>\n<Cells>\n<DataArray type=\"Int32\" Name=\"connectivity\" format=\"ascii\">\n"
    (res_foldl (fun acc index =>
        res_foldl (fun acc2 m =>
          (Trigen.out_cell_point o index m).bind fun p =>
          .ok (acc2 ++ fmt_nat p ++ " ")) acc (List.range nnode)) buf2
      (List.range ntriangle)).bind fun buf3 =>
    let buf4 := buf3 ++
      "\n</DataArray>\n<DataArray type=\"Int32\" Name=\"offsets\" format=\"ascii\">\n"
    let buf5 := ((List.range ntriangle).foldl (fun (p : ℕ × String) _ =>
        (p.1 + nnode, p.2 ++ fmt_nat (p.1 + nnode) ++ " ")) (0, buf4)).2
    let buf6 := buf5 ++
      "\n</DataArray>\n<DataArray type=\"UInt8\" Name=\"types\" format=\"ascii\">\n"
    let buf7 := (List.range ntriangle).foldl (fun acc _ => acc ++ fmt_nat vtk_type ++ " ") buf6
    .ok (buf7 ++ "\n</DataArray>\n</Cells>\n</Piece>\n</UnstructuredGrid>\n</VTKFile>\n")

/-! ### Concrete engine outputs pinned by the repository's own tests -/

/-- The single-triangle Delaunay output asserted by the test
`delaunay_1_works`: three points (0,0), (1,0), (0,1) and one cell with
corner ids 0, 1, 2; no Voronoi data. -/
def tri1_out : TriOut where
  npoint := 3
  ncell := 1
  cell_npoint := 3
  point := fun index dim =>
    if index = 1 ∧ dim = 0 then 1 else if index = 2 ∧ dim = 1 then 1 else 0
  point_marker := fun _ => 0
  cell_point := fun index corner => if index = 0 ∧ corner < 3 then (corner : ℤ) else 0
  cell_attribute := fun _ => 0
  voronoi_npoint := 0
  voronoi_point := fun _ _ => 0
  voronoi_nedge := 0
  voronoi_edge_point := fun _ _ => 0
  voronoi_edge_point_b_direction := fun _ _ => 0

/-- The Voronoi output asserted by the test `voronoi_1_works`: the same three
points, one Voronoi vertex (1/2, 1/2), and three infinite rays from it with
directions (0,-1), (1,1) and (-1,0). -/
def voronoi1_out : TriOut where
  npoint := 3
  ncell := 1
  cell_npoint := 3
  point := fun index dim =>
    if index = 1 ∧ dim = 0 then 1 else if index = 2 ∧ dim = 1 then 1 else 0
  point_marker := fun _ => 0
  cell_point := fun index corner => if index = 0 ∧ corner < 3 then (corner : ℤ) else 0
  cell_attribute := fun _ => 0
  voronoi_npoint := 1
  voronoi_point := fun index dim => if index = 0 ∧ dim < 2 then 1/2 else 0
  voronoi_nedge := 3
  voronoi_edge_point := fun index side =>
    if side = 0 then 0 else if index < 3 then -1 else 0
  voronoi_edge_point_b_direction := fun index dim =>
    if index = 0 then (if dim = 0 then 0 else -1)
    else if index = 1 then 1
    else if index = 2 then (if dim = 0 then -1 else 0)
    else 0

/-! ### Success characterizations of the setters -/

theorem Trigen.set_point_ok_iff (s : TrigenState) (index : ℕ) (marker : ℤ) (x y : ℚ)
    (s' : TrigenState) :
    Trigen.set_point s index marker x y = .ok s' ↔
      index ≤ I32_MAX ∧ index < s.npoint ∧
        s' = { s with all_points_set := index == s.npoint - 1 } := by
  unfold Trigen.set_point reqI32 to_i32 tri_set_point_status
  by_cases h1 : index ≤ I32_MAX
  · by_cases h2 : index < s.npoint
    · have h2' : ((index : ℤ) < (s.npoint : ℤ)) := by exact_mod_cast h2
      simp [h1, h2, h2', TRITET_SUCCESS, eq_comm]
    · have h2' : ¬ ((index : ℤ) < (s.npoint : ℤ)) := by exact_mod_cast h2
      simp [h1, h2, h2', TRITET_SUCCESS, TRITET_ERROR_NULL_DATA,
        TRITET_ERROR_NULL_POINT_LIST, TRITET_ERROR_INVALID_POINT_INDEX]
  · simp [h1]

theorem Trigen.set_segment_ok_iff (s : TrigenState) (n index : ℕ) (marker : ℤ) (a b : ℕ)
    (s' : TrigenState) (hn : s.nsegment = some n) :
    Trigen.set_segment s index marker a b = .ok s' ↔
      index ≤ I32_MAX ∧ a ≤ I32_MAX ∧ b ≤ I32_MAX ∧ index < n ∧ a < s.npoint ∧ b < s.npoint ∧
        s' = { s with all_segments_set := index == n - 1 } := by
  unfold Trigen.set_segment reqI32 to_i32 tri_set_segment_status
  rw [hn]
  by_cases h1 : index ≤ I32_MAX
  · by_cases h2 : a ≤ I32_MAX
    · by_cases h3 : b ≤ I32_MAX
      · by_cases h4 : index < n
        · have h4' : ((index : ℤ) < (n : ℤ)) := by exact_mod_cast h4
          by_cases h5 : a < s.npoint
          · by_cases h6 : b < s.npoint
            · have h5' : ((a : ℤ) < (s.npoint : ℤ)) := by exact_mod_cast h5
              have h6' : ((b : ℤ) < (s.npoint : ℤ)) := by exact_mod_cast h6
              simp [h1, h2, h3, h4, h4', h5, h5', h6, h6', TRITET_SUCCESS, eq_comm]
            · have h6' : ¬ ((b : ℤ) < (s.npoint : ℤ)) := by exact_mod_cast h6
              simp [h1, h2, h3, h4', h6, h6', TRITET_SUCCESS, TRITET_ERROR_NULL_DATA,
                TRITET_ERROR_NULL_SEGMENT_LIST, TRITET_ERROR_INVALID_SEGMENT_INDEX,
                TRITET_ERROR_INVALID_SEGMENT_POINT_ID]
          · have h5' : ¬ ((a : ℤ) < (s.npoint : ℤ)) := by exact_mod_cast h5
            simp [h1, h2, h3, h4', h5, h5', TRITET_SUCCESS, TRITET_ERROR_NULL_DATA,
              TRITET_ERROR_NULL_SEGMENT_LIST, TRITET_ERROR_INVALID_SEGMENT_INDEX,
              TRITET_ERROR_INVALID_SEGMENT_POINT_ID]
        · have h4' : ¬ ((index : ℤ) < (n : ℤ)) := by exact_mod_cast h4
          simp [h1, h2, h3, h4, h4', TRITET_SUCCESS, TRITET_ERROR_NULL_DATA,
            TRITET_ERROR_NULL_SEGMENT_LIST, TRITET_ERROR_INVALID_SEGMENT_INDEX,
            TRITET_ERROR_INVALID_SEGMENT_POINT_ID]
      · simp [h1, h2, h3]
    · simp [h1, h2]
  · simp [h1]

theorem Trigen.set_region_ok_iff (s : TrigenState) (n index attrib : ℕ) (x y : ℚ)
    (ma : Option ℚ) (s' : TrigenState) (hn : s.nregion = some n) :
    Trigen.set_region s index attrib x y ma = .ok s' ↔
      index ≤ I32_MAX ∧ attrib ≤ I32_MAX ∧ index < n ∧
        s' = { s with all_regions_set := index == n - 1 } := by
  unfold Trigen.set_region reqI32 to_i32 tri_set_region_status
  rw [hn]
  by_cases h1 : index ≤ I32_MAX
  · by_cases h2 : attrib ≤ I32_MAX
    · by_cases h3 : index < n
      · have h3' : ((index : ℤ) < (n : ℤ)) := by exact_mod_cast h3
        simp [h1, h2, h3, h3', TRITET_SUCCESS, eq_comm]
      · have h3' : ¬ ((index : ℤ) < (n : ℤ)) := by exact_mod_cast h3
        simp [h1, h2, h3, h3', TRITET_SUCCESS, TRITET_ERROR_NULL_DATA,
          TRITET_ERROR_NULL_REGION_LIST, TRITET_ERROR_INVALID_REGION_INDEX]
    · simp [h1, h2]
  · simp [h1]

theorem Trigen.set_hole_ok_iff (s : TrigenState) (n index : ℕ) (x y : ℚ)
    (s' : TrigenState) (hn : s.nhole = some n) :
    Trigen.set_hole s index x y = .ok s' ↔
      index ≤ I32_MAX ∧ index < n ∧
        s' = { s with all_holes_set := index == n - 1 } := by
  unfold Trigen.set_hole reqI32 to_i32 tri_set_hole_status
  rw [hn]
  by_cases h1 : index ≤ I32_MAX
  · by_cases h2 : index < n
    · have h2' : ((index : ℤ) < (n : ℤ)) := by exact_mod_cast h2
      simp [h1, h2, h2', TRITET_SUCCESS, eq_comm]
    · have h2' : ¬ ((index : ℤ) < (n : ℤ)) := by exact_mod_cast h2
      simp [h1, h2, h2', TRITET_SUCCESS, TRITET_ERROR_NULL_DATA,
        TRITET_ERROR_NULL_HOLE_LIST, TRITET_ERROR_INVALID_HOLE_INDEX]
  · simp [h1]

theorem Tetgen.tet_set_point_ok_iff (s : TetgenState) (index : ℕ) (marker : ℤ) (x y z : ℚ)
    (s' : TetgenState) :
    Tetgen.set_point s index marker x y z = .ok s' ↔
      index ≤ I32_MAX ∧ index < s.npoint ∧
        s' = { s with all_points_set := index == s.npoint - 1 } := by
  unfold Tetgen.set_point reqI32 to_i32 tet_set_point_status handle_status Res.bind
  by_cases h1 : index ≤ I32_MAX
  · by_cases h2 : index < s.npoint
    · have h2' : ((index : ℤ) < (s.npoint : ℤ)) := by exact_mod_cast h2
      simp [h1, h2, h2', TRITET_SUCCESS, eq_comm]
    · have h2' : ¬ ((index : ℤ) < (s.npoint : ℤ)) := by exact_mod_cast h2
      simp [h1, h2, h2', TRITET_SUCCESS, TRITET_ERROR_INVALID_POINT_INDEX]
  · simp [h1]

theorem Tetgen.set_facet_point_ok_iff (s : TetgenState) (fnp : List ℕ) (index m p : ℕ)
    (s' : TetgenState) (hf : s.facet_npoint = some fnp) :
    Tetgen.set_facet_point s index m p = .ok s' ↔
      index ≤ I32_MAX ∧ m ≤ I32_MAX ∧ p ≤ I32_MAX ∧
        index < fnp.length ∧ m < fnp.getD index 0 ∧ p < s.npoint ∧
        s' = { s with
               facet_point_set_count :=
                 (if index = 0 ∧ m = 0 then 0 else s.facet_point_set_count) + 1,
               all_facets_set :=
                 if (if index = 0 ∧ m = 0 then 0 else s.facet_point_set_count) + 1
                      = s.total_facet_npoint
                 then true else s.all_facets_set } := by
  unfold Tetgen.set_facet_point reqI32 to_i32 tet_set_facet_point_status handle_status Res.bind
  rw [hf]
  by_cases h1 : index ≤ I32_MAX
  · by_cases h2 : m ≤ I32_MAX
    · by_cases h3 : p ≤ I32_MAX
      · by_cases h4 : index < fnp.length
        · have hgd : fnp.getD index 0 = fnp[index] := List.getD_eq_getElem fnp 0 h4
          rw [hgd]
          by_cases h5 : m < fnp[index]
          · by_cases h6 : p < s.npoint
            · simp [h1, h2, h3, h4, h5, h6, TRITET_SUCCESS]
              constructor
              · intro h
                exact h.symm
              · intro h
                exact h.symm
            · simp [h1, h2, h3, h4, h5, h6, TRITET_SUCCESS,
                TRITET_ERROR_INVALID_FACET_POINT_ID]
          · simp [h1, h2, h3, h4, h5, TRITET_SUCCESS,
              TRITET_ERROR_INVALID_FACET_POINT_INDEX]
        · simp [h1, h2, h3, h4, TRITET_SUCCESS, TRITET_ERROR_INVALID_FACET_INDEX]
      · simp [h1, h2, h3]
    · simp [h1, h2]
  · simp [h1]

theorem Tetgen.set_facet_marker_ok_iff (s : TetgenState) (fnp : List ℕ) (index : ℕ)
    (marker : ℤ) (s' : TetgenState) (hf : s.facet_npoint = some fnp) :
    Tetgen.set_facet_marker s index marker = .ok s' ↔
      index ≤ I32_MAX ∧ index < fnp.length ∧ s' = s := by
  unfold Tetgen.set_facet_marker reqI32 to_i32 tet_set_facet_marker_status handle_status Res.bind
  rw [hf]
  by_cases h1 : index ≤ I32_MAX
  · by_cases h2 : index < fnp.length
    · have h2' : ((index : ℤ) < (fnp.length : ℤ)) := by exact_mod_cast h2
      simp [h1, h2, h2', TRITET_SUCCESS, eq_comm]
    · have h2' : ¬ ((index : ℤ) < (fnp.length : ℤ)) := by exact_mod_cast h2
      simp [h1, h2, h2', TRITET_SUCCESS, TRITET_ERROR_INVALID_FACET_INDEX]
  · simp [h1]

theorem Tetgen.tet_set_region_ok_iff (s : TetgenState) (n index attrib : ℕ) (x y z : ℚ)
    (mv : Option ℚ) (s' : TetgenState) (hn : s.nregion = some n) :
    Tetgen.set_region s index attrib x y z mv = .ok s' ↔
      index ≤ I32_MAX ∧ attrib ≤ I32_MAX ∧ index < n ∧
        s' = { s with all_regions_set := index == n - 1 } := by
  unfold Tetgen.set_region reqI32 to_i32 tet_set_region_status handle_status Res.bind
  rw [hn]
  by_cases h1 : index ≤ I32_MAX
  · by_cases h2 : attrib ≤ I32_MAX
    · by_cases h3 : index < n
      · have h3' : ((index : ℤ) < (n : ℤ)) := by exact_mod_cast h3
        simp [h1, h2, h3, h3', TRITET_SUCCESS, eq_comm]
      · have h3' : ¬ ((index : ℤ) < (n : ℤ)) := by exact_mod_cast h3
        simp [h1, h2, h3, h3', TRITET_SUCCESS, TRITET_ERROR_INVALID_REGION_INDEX]
    · simp [h1, h2]
  · simp [h1]

theorem Tetgen.tet_set_hole_ok_iff (s : TetgenState) (n index : ℕ) (x y z : ℚ)
    (s' : TetgenState) (hn : s.nhole = some n) :
    Tetgen.set_hole s index x y z = .ok s' ↔
      index ≤ I32_MAX ∧ index < n ∧
        s' = { s with all_holes_set := index == n - 1 } := by
  unfold Tetgen.set_hole reqI32 to_i32 tet_set_hole_status handle_status Res.bind
  rw [hn]
  by_cases h1 : index ≤ I32_MAX
  · by_cases h2 : index < n
    · have h2' : ((index : ℤ) < (n : ℤ)) := by exact_mod_cast h2
      simp [h1, h2, h2', TRITET_SUCCESS, eq_comm]
    · have h2' : ¬ ((index : ℤ) < (n : ℤ)) := by exact_mod_cast h2
      simp [h1, h2, h2', TRITET_SUCCESS, TRITET_ERROR_INVALID_HOLE_INDEX]
  · simp [h1]

/-! ### Example builder states used by the witnesses -/

/-- A freshly allocated 2D builder with 3 points, 3 segments, 2 regions and
2 holes. -/
def exTri : TrigenState :=
  { npoint := 3, nsegment := some 3, nregion := some 2, nhole := some 2,
    all_points_set := false, all_segments_set := false,
    all_regions_set := false, all_holes_set := false }

/-- A freshly allocated 3D builder with 4 points and 4 triangular facets. -/
def exTet : TetgenState :=
  { npoint := 4, facet_npoint := some [3, 3, 3, 3], total_facet_npoint := 12,
    facet_point_set_count := 0, nregion := some 2, nhole := some 2,
    all_points_set := false, all_facets_set := false,
    all_regions_set := false, all_holes_set := false }

/-- C1: for Trigen points, segments, regions and holes and for Tetgen points,
regions and holes, a successful setter call leaves the corresponding "all
set" flag true exactly when the index just written equals the declared
capacity minus one — true at `capacity - 1`, false at any other index,
independently of which indices were written before. -/
theorem c1_completion_flag_tracks_last_write :
    (∀ (s : TrigenState) (index : ℕ) (marker : ℤ) (x y : ℚ) (s' : TrigenState),
        Trigen.set_point s index marker x y = .ok s' →
        (s'.all_points_set = true ↔ index = s.npoint - 1)) ∧
    (∀ (s : TrigenState) (n index : ℕ) (marker : ℤ) (a b : ℕ) (s' : TrigenState),
        s.nsegment = some n → Trigen.set_segment s index marker a b = .ok s' →
        (s'.all_segments_set = true ↔ index = n - 1)) ∧
    (∀ (s : TrigenState) (n index attrib : ℕ) (x y : ℚ) (ma : Option ℚ) (s' : TrigenState),
        s.nregion = some n → Trigen.set_region s index attrib x y ma = .ok s' →
        (s'.all_regions_set = true ↔ index = n - 1)) ∧
    (∀ (s : TrigenState) (n index : ℕ) (x y : ℚ) (s' : TrigenState),
        s.nhole = some n → Trigen.set_hole s index x y = .ok s' →
        (s'.all_holes_set = true ↔ index = n - 1)) ∧
    (∀ (s : TetgenState) (index : ℕ) (marker : ℤ) (x y z : ℚ) (s' : TetgenState),
        Tetgen.set_point s index marker x y z = .ok s' →
        (s'.all_points_set = true ↔ index = s.npoint - 1)) ∧
    (∀ (s : TetgenState) (n index attrib : ℕ) (x y z : ℚ) (mv : Option ℚ) (s' : TetgenState),
        s.nregion = some n → Tetgen.set_region s index attrib x y z mv = .ok s' →
        (s'.all_regions_set = true ↔ index = n - 1)) ∧
    (∀ (s : TetgenState) (n index : ℕ) (x y z : ℚ) (s' : TetgenState),
        s.nhole = some n → Tetgen.set_hole s index x y z = .ok s' →
        (s'.all_holes_set = true ↔ index = n - 1)) := by
  refine ⟨?_, ?_, ?_, ?_, ?_, ?_, ?_⟩
  · intro s index marker x y s' h
    obtain ⟨-, -, rfl⟩ := (Trigen.set_point_ok_iff s index marker x y s').mp h
    simp
  · intro s n index marker a b s' hn h
    obtain ⟨-, -, -, -, -, -, rfl⟩ := (Trigen.set_segment_ok_iff s n index marker a b s' hn).mp h
    simp
  · intro s n index attrib x y ma s' hn h
    obtain ⟨-, -, -, rfl⟩ := (Trigen.set_region_ok_iff s n index attrib x y ma s' hn).mp h
    simp
  · intro s n index x y s' hn h
    obtain ⟨-, -, rfl⟩ := (Trigen.set_hole_ok_iff s n index x y s' hn).mp h
    simp
  · intro s index marker x y z s' h
    obtain ⟨-, -, rfl⟩ := (Tetgen.tet_set_point_ok_iff s index marker x y z s').mp h
    simp
  · intro s n index attrib x y z mv s' hn h
    obtain ⟨-, -, -, rfl⟩ := (Tetgen.tet_set_region_ok_iff s n index attrib x y z mv s' hn).mp h
    simp
  · intro s n index x y z s' hn h
    obtain ⟨-, -, rfl⟩ := (Tetgen.tet_set_hole_ok_iff s n index x y z s' hn).mp h
    simp

/-- Witness for C1: concrete successful setter calls at the last index leave
the corresponding flag true. -/
theorem c1_completion_flag_witness :
    (∃ s', Trigen.set_point exTri 2 0 0 0 = .ok s' ∧ s'.all_points_set = true) ∧
    (∃ s', Trigen.set_segment exTri 2 (-10) 0 1 = .ok s' ∧ s'.all_segments_set = true) ∧
    (∃ s', Trigen.set_region exTri 1 1 0 0 none = .ok s' ∧ s'.all_regions_set = true) ∧
    (∃ s', Trigen.set_hole exTri 1 0 0 = .ok s' ∧ s'.all_holes_set = true) ∧
    (∃ s', Tetgen.set_point exTet 3 0 0 0 0 = .ok s' ∧ s'.all_points_set = true) ∧
    (∃ s', Tetgen.set_region exTet 1 1 0 0 0 none = .ok s' ∧ s'.all_regions_set = true) ∧
    (∃ s', Tetgen.set_hole exTet 1 0 0 0 = .ok s' ∧ s'.all_holes_set = true) := by
  refine ⟨⟨{ exTri with all_points_set := true }, by decide, ?_⟩,
          ⟨{ exTri with all_segments_set := true }, by decide, ?_⟩,
          ⟨{ exTri with all_regions_set := true }, by decide, ?_⟩,
          ⟨{ exTri with all_holes_set := true }, by decide, ?_⟩,
          ⟨{ exTet with all_points_set := true }, by decide, ?_⟩,
          ⟨{ exTet with all_regions_set := true }, by decide, ?_⟩,
          ⟨{ exTet with all_holes_set := true }, by decide, ?_⟩⟩
  · exact (c1_completion_flag_tracks_last_write.1 exTri 2 0 0 0 _ (by decide)).mpr (by decide)
  · exact (c1_completion_flag_tracks_last_write.2.1 exTri 3 2 (-10) 0 1 _
      (by decide) (by decide)).mpr (by decide)
  · exact (c1_completion_flag_tracks_last_write.2.2.1 exTri 2 1 1 0 0 none _
      (by decide) (by decide)).mpr (by decide)
  · exact (c1_completion_flag_tracks_last_write.2.2.2.1 exTri 2 1 0 0 _
      (by decide) (by decide)).mpr (by decide)
  · exact (c1_completion_flag_tracks_last_write.2.2.2.2.1 exTet 3 0 0 0 0 _
      (by decide)).mpr (by decide)
  · exact (c1_completion_flag_tracks_last_write.2.2.2.2.2.1 exTet 2 1 1 0 0 0 none _
      (by decide) (by decide)).mpr (by decide)
  · exact (c1_completion_flag_tracks_last_write.2.2.2.2.2.2 exTet 2 1 0 0 0 _
      (by decide) (by decide)).mpr (by decide)

/-- The 2D example builder with all completion flags raised. -/
def exTriReady : TrigenState :=
  { exTri with all_points_set := true, all_segments_set := true,
               all_regions_set := true, all_holes_set := true }

/-- The 3D example builder with all completion flags raised. -/
def exTetReady : TetgenState :=
  { exTet with facet_point_set_count := 12, all_points_set := true,
               all_facets_set := true, all_regions_set := true, all_holes_set := true }

/-- C2: `generate_delaunay` and `generate_voronoi` return an error without
invoking the native engine exactly when the all-points-set flag is false;
`generate_mesh` errors exactly when the points flag or the segments flag
(2D) / facets flag (3D) is false; with the required flags true the checks
pass and the native engine call is reached. -/
theorem c2_generation_preconditions :
    (∀ (s : TrigenState) (st : ℤ),
        ((∃ e, (Trigen.generate_delaunay s st).1 = .precond e) ↔ s.all_points_set = false) ∧
        (s.all_points_set = true →
          (Trigen.generate_delaunay s st).1 = .engine (tri_run_delaunay_result st))) ∧
    (∀ (s : TrigenState) (st : ℤ),
        ((∃ e, (Trigen.generate_voronoi s st).1 = .precond e) ↔ s.all_points_set = false) ∧
        (s.all_points_set = true →
          (Trigen.generate_voronoi s st).1 = .engine (tri_run_delaunay_result st))) ∧
    (∀ (s : TrigenState) (st : ℤ),
        ((∃ e, (Trigen.generate_mesh s st).1 = .precond e)
            ↔ (s.all_points_set = false ∨ s.all_segments_set = false)) ∧
        (s.all_points_set = true → s.all_segments_set = true →
          (Trigen.generate_mesh s st).1 = .engine (tri_run_triangulate_result st))) ∧
    (∀ (s : TetgenState) (st : ℤ),
        ((∃ e, (Tetgen.generate_delaunay s st).1 = .precond e) ↔ s.all_points_set = false) ∧
        (s.all_points_set = true →
          (Tetgen.generate_delaunay s st).1 = .engine (handle_status st))) ∧
    (∀ (s : TetgenState) (st : ℤ),
        ((∃ e, (Tetgen.generate_mesh s st).1 = .precond e)
            ↔ (s.all_points_set = false ∨ s.all_facets_set = false)) ∧
        (s.all_points_set = true → s.all_facets_set = true →
          (Tetgen.generate_mesh s st).1 = .engine (handle_status st))) := by
  refine ⟨?_, ?_, ?_, ?_, ?_⟩
  · intro s st
    cases hp : s.all_points_set <;> simp [Trigen.generate_delaunay, hp]
  · intro s st
    cases hp : s.all_points_set <;> simp [Trigen.generate_voronoi, hp]
  · intro s st
    cases hp : s.all_points_set <;> cases hs : s.all_segments_set <;>
      simp [Trigen.generate_mesh, hp, hs]
  · intro s st
    cases hp : s.all_points_set <;> simp [Tetgen.generate_delaunay, hp]
  · intro s st
    cases hp : s.all_points_set <;> cases hs : s.all_facets_set <;>
      simp [Tetgen.generate_mesh, hp, hs]

/-- Witness for C2: with the flags raised the engine is reached; with a fresh
builder the mesh generators stop with a precondition error. -/
theorem c2_generation_witness :
    (Trigen.generate_delaunay exTriReady 0).1 = .engine (tri_run_delaunay_result 0) ∧
    (Trigen.generate_mesh exTriReady 0).1 = .engine (tri_run_triangulate_result 0) ∧
    (∃ e, (Trigen.generate_mesh exTri 0).1 = .precond e) ∧
    (Tetgen.generate_mesh exTetReady 0).1 = .engine (handle_status 0) ∧
    (∃ e, (Tetgen.generate_delaunay exTet 0).1 = .precond e) :=
  ⟨(c2_generation_preconditions.1 exTriReady 0).2 (by decide),
   (c2_generation_preconditions.2.2.1 exTriReady 0).2 (by decide) (by decide),
   ((c2_generation_preconditions.2.2.1 exTri 0).1).mpr (Or.inl (by decide)),
   (c2_generation_preconditions.2.2.2.2 exTetReady 0).2 (by decide) (by decide),
   ((c2_generation_preconditions.2.2.2.1 exTet 0).1).mpr (by decide)⟩

/-- Runs a list of `set_facet_point` calls (facet index, local corner, point
id) in sequence, propagating errors and panics. -/
def run_facet_calls (s : TetgenState) : List (ℕ × ℕ × ℕ) → Res TetgenState
  | [] => .ok s
  | (i, m, p) :: rest => (Tetgen.set_facet_point s i m p).bind fun s' =>
      run_facet_calls s' rest

/-- Projects the facet-completion flag out of a run result. -/
def res_all_facets_set : Res TetgenState → Option Bool
  | .ok s => some s.all_facets_set
  | _ => none

/-- Counterexample to C3: on the 4-facet builder (arities 3,3,3,3, total 12
corners) the twelve successful calls below write every declared corner
exactly once, but corner (0,0) is written second, which resets the running
call counter; the counter ends at 11 ≠ 12 and the all-facets-set flag stays
false, so completion is not order-independent. -/
theorem c3_order_independence_counterexample :
    res_all_facets_set (run_facet_calls exTet
      [(0, 1, 0), (0, 0, 0), (0, 2, 0),
       (1, 0, 0), (1, 1, 0), (1, 2, 0),
       (2, 0, 0), (2, 1, 0), (2, 2, 0),
       (3, 0, 0), (3, 1, 0), (3, 2, 0)]) = some false := by decide

/-- C3 amended: facet completion is call-count based, not corner-coverage
based: a successful `set_facet_point` call first resets the running count to
zero when it writes facet 0, corner 0, then increments it by one, and the
all-facets-set flag is latched to true exactly when the resulting count
equals the total declared corner count (and otherwise keeps its previous
value); so the flag is reliable only for callers that write the corners in
ascending order starting at facet 0, corner 0. -/
theorem c3_facet_completion_call_count :
    ∀ (s : TetgenState) (fnp : List ℕ) (index m p : ℕ) (s' : TetgenState),
      s.facet_npoint = some fnp → Tetgen.set_facet_point s index m p = .ok s' →
      s'.facet_point_set_count
          = (if index = 0 ∧ m = 0 then 0 else s.facet_point_set_count) + 1 ∧
      s'.all_facets_set
          = (if s'.facet_point_set_count = s.total_facet_npoint then true
             else s.all_facets_set) := by
  intro s fnp index m p s' hf h
  obtain ⟨-, -, -, -, -, -, rfl⟩ := (Tetgen.set_facet_point_ok_iff s fnp index m p s' hf).mp h
  exact ⟨rfl, rfl⟩

/-- Witness for C3: the first corner write on the fresh 4-facet builder sets
the count to 1 and leaves the flag false. -/
theorem c3_facet_completion_witness :
    Tetgen.set_facet_point exTet 0 0 0 = .ok { exTet with facet_point_set_count := 1 } ∧
    ({ exTet with facet_point_set_count := 1 } : TetgenState).facet_point_set_count = 1 ∧
    ({ exTet with facet_point_set_count := 1 } : TetgenState).all_facets_set = false := by
  refine ⟨by decide, ?_, ?_⟩
  · exact (c3_facet_completion_call_count exTet [3, 3, 3, 3] 0 0 0
      { exTet with facet_point_set_count := 1 } (by decide) (by decide)).1.trans (by decide)
  · exact (c3_facet_completion_call_count exTet [3, 3, 3, 3] 0 0 0
      { exTet with facet_point_set_count := 1 } (by decide) (by decide)).2.trans (by decide)

/-- A minimal 3D output oracle whose connectivity array stores the native
corner position itself, making the translation directly observable. -/
def tet1_out : TetOut where
  npoint := 4
  ncell := 1
  cell_npoint := 4
  point := fun _ _ => 0
  point_marker := fun _ => 0
  cell_point := fun index corner => if index = 0 then (corner : ℤ) else 0
  cell_attribute := fun _ => 0

/-- C4: `out_cell_point` returns the engine connectivity entry at the
position given by the fixed translation table of its element family
(`TRITET_TO_TRIANGLE = [0,1,2,5,3,4]`, `TRITET_TO_TETGEN =
[0,1,2,3,6,7,9,5,8,4]`), and on the first-order corners (m < 3 for
triangles, m < 4 for tetrahedra) the table is the identity. -/
theorem c4_node_order_translation :
    (TRITET_TO_TRIANGLE = [0, 1, 2, 5, 3, 4]
      ∧ TRITET_TO_TETGEN = [0, 1, 2, 3, 6, 7, 9, 5, 8, 4]) ∧
    (∀ (o : TriOut) (index m : ℕ) (h : m < TRITET_TO_TRIANGLE.length), index ≤ I32_MAX →
        Trigen.out_cell_point o index m
          = .ok (usize_of_i32 (o.cell_point index (TRITET_TO_TRIANGLE.get ⟨m, h⟩)))) ∧
    (∀ m, m < 3 → TRITET_TO_TRIANGLE.getD m 7 = m) ∧
    (∀ (o : TetOut) (index m : ℕ) (h : m < TRITET_TO_TETGEN.length), index ≤ I32_MAX →
        Tetgen.out_cell_point o index m
          = .ok (usize_of_i32 (o.cell_point index (TRITET_TO_TETGEN.get ⟨m, h⟩)))) ∧
    (∀ m, m < 4 → TRITET_TO_TETGEN.getD m 11 = m) := by
  refine ⟨⟨rfl, rfl⟩, ?_, ?_, ?_, ?_⟩
  · intro o index m h hle
    have hall : ∀ i : Fin TRITET_TO_TRIANGLE.length, TRITET_TO_TRIANGLE.get i ≤ I32_MAX := by
      decide
    have hc : TRITET_TO_TRIANGLE.get ⟨m, h⟩ ≤ I32_MAX := hall ⟨m, h⟩
    have hc2 : TRITET_TO_TRIANGLE[m] ≤ I32_MAX := hc
    unfold Trigen.out_cell_point reqI32 to_i32
    simp [h, hle, hc, hc2]
  · intro m hm
    interval_cases m <;> rfl
  · intro o index m h hle
    have hall : ∀ i : Fin TRITET_TO_TETGEN.length, TRITET_TO_TETGEN.get i ≤ I32_MAX := by
      decide
    have hc : TRITET_TO_TETGEN.get ⟨m, h⟩ ≤ I32_MAX := hall ⟨m, h⟩
    have hc2 : TRITET_TO_TETGEN[m] ≤ I32_MAX := hc
    unfold Tetgen.out_cell_point reqI32 to_i32
    simp [h, hle, hc, hc2]
  · intro m hm
    interval_cases m <;> rfl

/-- Witness for C4: on concrete oracles the translated read is visible; with
the corner-echo oracle, local node 4 of a tetrahedron reads native corner 6. -/
theorem c4_node_order_witness :
    Trigen.out_cell_point tri1_out 0 1 = .ok 1 ∧
    Tetgen.out_cell_point tet1_out 0 4 = .ok 6 := by
  constructor
  · have h := c4_node_order_translation.2.1 tri1_out 0 1 (by decide) (by decide)
    rw [h]; decide
  · have h := c4_node_order_translation.2.2.2.1 tet1_out 0 4 (by decide) (by decide)
    rw [h]; decide

/-- C5, evaluated at the failing inputs: contrary to the documented
zero-return contract, an output accessor called with an index above
`i32::MAX` panics inside `to_i32` (the `unwrap` of a failed `i32::try_from`)
instead of returning the zero value, and `out_cell_point` with local node 6
panics on the out-of-bounds read of the 6-entry translation table; the panic
is independent of the engine's arrays. -/
theorem c5_out_of_range_accessor_panics :
    Trigen.out_point tri1_out 2147483648 0 = .panicked ∧
    Trigen.out_cell_point tri1_out 0 6 = .panicked ∧
    (∀ o : TriOut, Trigen.out_point o 2147483648 0 = .panicked) ∧
    (∀ o : TetOut, Tetgen.out_point o 2147483648 0 = .panicked) ∧
    (∀ o : TriOut, Trigen.out_cell_point o 0 6 = .panicked) :=
  ⟨by decide, by decide, fun _ => rfl, fun _ => rfl, fun _ => rfl⟩

/-- C6: `out_voronoi_edge_point_b` yields `Index(id)` when the engine's
second-point field is a non-negative id, and yields `Direction(dx, dy)` read
from the companion direction accessor exactly when that field is the
sentinel `-1`. -/
theorem c6_voronoi_edge_point_b_cases :
    ∀ (o : TriOut) (index : ℕ), index ≤ I32_MAX →
      (∀ id : ℤ, o.voronoi_edge_point index 1 = id → 0 ≤ id → id ≤ (I32_MAX : ℤ) →
        Trigen.out_voronoi_edge_point_b o index = .ok (.Index id.toNat)) ∧
      ((∃ dx dy, Trigen.out_voronoi_edge_point_b o index = .ok (.Direction dx dy))
          ↔ o.voronoi_edge_point index 1 = -1) ∧
      (o.voronoi_edge_point index 1 = -1 →
        Trigen.out_voronoi_edge_point_b o index
          = .ok (.Direction (o.voronoi_edge_point_b_direction index 0)
                            (o.voronoi_edge_point_b_direction index 1))) := by
  intro o index hle
  refine ⟨?_, ?_, ?_⟩
  · intro id hid hnn hub
    have hne : id ≠ -1 := by omega
    have hub2 : id ≤ 2147483647 := by simpa [I32_MAX] using hub
    have hmod : id % 18446744073709551616 = id := by omega
    unfold Trigen.out_voronoi_edge_point_b reqI32 to_i32 usize_of_i32
    simp [hle, hid, hne]
    norm_num [hmod]
  · constructor
    · rintro ⟨dx, dy, h⟩
      by_cases hs : o.voronoi_edge_point index 1 = -1
      · exact hs
      · exfalso
        unfold Trigen.out_voronoi_edge_point_b reqI32 to_i32 at h
        simp [hle, hs] at h
    · intro hs
      exact ⟨o.voronoi_edge_point_b_direction index 0, o.voronoi_edge_point_b_direction index 1,
        by unfold Trigen.out_voronoi_edge_point_b reqI32 to_i32; simp [hle, hs]⟩
  · intro hs
    unfold Trigen.out_voronoi_edge_point_b reqI32 to_i32
    simp [hle, hs]

/-- Witness for C6: on the Voronoi output of the 3-point test, edge 0 is the
ray with direction (0,-1) and an edge slot holding a non-negative id yields
that index. -/
theorem c6_voronoi_edge_point_b_witness :
    Trigen.out_voronoi_edge_point_b voronoi1_out 0 = .ok (.Direction 0 (-1)) ∧
    Trigen.out_voronoi_edge_point_b voronoi1_out 5 = .ok (.Index 0) := by
  constructor
  · have h := (c6_voronoi_edge_point_b_cases voronoi1_out 0 (by decide)).2.2 (by decide)
    rw [h]; decide
  · have h := (c6_voronoi_edge_point_b_cases voronoi1_out 5 (by decide)).1 0
      (by decide) (by decide) (by decide)
    rw [h]
    rfl

/-- The branchless `if a < b then a else b` agrees with `min`. -/
theorem ite_lt_eq_min (a b : ℚ) : (if a < b then a else b) = min a b := by
  rcases le_total a b with h | h
  · rcases eq_or_lt_of_le h with rfl | h2
    · simp
    · simp [h2, min_eq_left h]
  · have h2 : ¬ a < b := not_lt.mpr h
    simp [h2, min_eq_right h]

/-- The per-axis parametric distance to the box edge selected by the sign of
the direction component (meaningful for a nonzero component). -/
def axis_param (lo hi a d : ℚ) : ℚ :=
  if 0 < d then (hi - a) / d else (lo - a) / d

/-- For nonzero direction components the code's clip computes the minimum of
the two per-axis parametric values and draws only when it is positive. -/
theorem clip_ray_eq_min (xmin xmax ymin ymax xa ya dx dy : ℚ) (hdx : dx ≠ 0) (hdy : dy ≠ 0) :
    clip_ray xmin xmax ymin ymax xa ya dx dy =
      (if 0 < min (axis_param xmin xmax xa dx) (axis_param ymin ymax ya dy) then
        some (xa + min (axis_param xmin xmax xa dx) (axis_param ymin ymax ya dy) * dx,
              ya + min (axis_param xmin xmax xa dx) (axis_param ymin ymax ya dy) * dy)
      else none) := by
  unfold clip_ray axis_param
  rcases lt_or_gt_of_ne hdx with h1 | h1 <;> rcases lt_or_gt_of_ne hdy with h2 | h2
  · have h1' : ¬ (0 : ℚ) < dx := not_lt.mpr h1.le
    have h2' : ¬ (0 : ℚ) < dy := not_lt.mpr h2.le
    simp only [h1, h1', h2, h2', if_true, if_false, ite_true, ite_false, ite_lt_eq_min]
  · have h1' : ¬ (0 : ℚ) < dx := not_lt.mpr h1.le
    simp only [h1, h1', h2, if_true, if_false, ite_true, ite_false, ite_lt_eq_min]
  · have h2' : ¬ (0 : ℚ) < dy := not_lt.mpr h2.le
    simp only [h1, h2, h2', if_true, if_false, ite_true, ite_false, ite_lt_eq_min]
  · simp only [h1, h2, if_true, if_false, ite_true, ite_false, ite_lt_eq_min]

set_option maxHeartbeats 2000000 in
/-- Counterexample to C7: in the Voronoi output of the 3-point test the box
is the unit square and edge 0 is the ray from (1/2, 1/2) with direction
(0, -1); its y-axis parametric distance is the positive 1/2, so per the
claim it must be clipped to the segment ending at (1/2, 0) — but the code
assigns the zero direction component the per-axis value 0, takes the
minimum of both axes and requires it positive, so only the (1, 1) ray is
drawn and the two axis-aligned rays are dropped. -/
theorem c7_ray_clip_counterexample :
    Trigen.draw_voronoi_segments voronoi1_out = .ok [((1/2, 1/2), (1, 1))] ∧
    clip_ray 0 1 0 1 (1/2) (1/2) 0 (-1) = none ∧
    clip_ray_spec 0 1 0 1 (1/2) (1/2) 0 (-1) = some (1/2, 0) := by
  refine ⟨?_, ?_, ?_⟩
  · have hbox1 : Trigen.draw_voronoi_box_points voronoi1_out
        { minx := F64_MAX, maxx := F64_MIN, miny := F64_MAX, maxy := F64_MIN }
        = .ok { minx := 0, maxx := 1, miny := 0, maxy := 1 } := by
      unfold Trigen.draw_voronoi_box_points
      norm_num [res_foldl, Res.bind, Trigen.out_point, reqI32, to_i32, voronoi1_out,
        I32_MAX, F64_MAX, F64_MIN, min_def, max_def, show List.range 3 = [0, 1, 2] from rfl]
    have hbox2 : Trigen.draw_voronoi_box_vertices voronoi1_out
        { minx := 0, maxx := 1, miny := 0, maxy := 1 }
        = .ok { minx := 0, maxx := 1, miny := 0, maxy := 1 } := by
      unfold Trigen.draw_voronoi_box_vertices
      norm_num [res_foldl, Res.bind, Trigen.out_voronoi_point, reqI32, to_i32, voronoi1_out,
        I32_MAX, min_def, max_def, show List.range 1 = [0] from rfl]
    have hedges : Trigen.draw_voronoi_edges voronoi1_out [0, 1, 2]
        { minx := 0, maxx := 1, miny := 0, maxy := 1 } []
        = .ok ({ minx := 0, maxx := 1, miny := 0, maxy := 1 }, [((1/2, 1/2), (1, 1))]) := by
      norm_num [Trigen.draw_voronoi_edges, Res.bind, Trigen.out_voronoi_edge_point_a,
        Trigen.out_voronoi_point, Trigen.out_voronoi_edge_point_b, reqI32, to_i32,
        usize_of_i32, clip_ray, voronoi1_out, I32_MAX, min_def, max_def]
    unfold Trigen.draw_voronoi_segments
    rw [show voronoi1_out.voronoi_npoint = 1 from rfl, show voronoi1_out.voronoi_nedge = 3 from rfl,
        show List.range 3 = [0, 1, 2] from rfl]
    norm_num [Res.bind, hbox1, hbox2, hedges]
  · unfold clip_ray
    norm_num
  · unfold clip_ray_spec
    have hd : (decide ((0:ℚ) < 1/2)) = true := by norm_num
    norm_num [List.filterMap, List.filter, hd, List.foldl_nil]

/-- C7 amended: a zero direction component contributes the per-axis value 0
(not "no constraint"), the clip parameter is the minimum of the two per-axis
values, and the segment is emitted only when that minimum is positive; hence
a ray with a zero direction component is never drawn, and a ray whose two
per-axis values are both positive is clipped exactly at their minimum. -/
theorem c7_ray_clip_amended :
    ∀ xmin xmax ymin ymax xa ya dx dy : ℚ,
      (dx = 0 ∨ dy = 0 → clip_ray xmin xmax ymin ymax xa ya dx dy = none) ∧
      (dx ≠ 0 → dy ≠ 0 → 0 < axis_param xmin xmax xa dx → 0 < axis_param ymin ymax ya dy →
        clip_ray xmin xmax ymin ymax xa ya dx dy
          = some (xa + min (axis_param xmin xmax xa dx) (axis_param ymin ymax ya dy) * dx,
                  ya + min (axis_param xmin xmax xa dx) (axis_param ymin ymax ya dy) * dy)) ∧
      (dx ≠ 0 → dy ≠ 0 →
        (axis_param xmin xmax xa dx ≤ 0 ∨ axis_param ymin ymax ya dy ≤ 0) →
        clip_ray xmin xmax ymin ymax xa ya dx dy = none) := by
  intro xmin xmax ymin ymax xa ya dx dy
  refine ⟨?_, ?_, ?_⟩
  · rintro (rfl | rfl)
    · unfold clip_ray
      simp only [lt_self_iff_false, ite_false, if_false]
      by_cases hmy : (0 : ℚ) <
          (if 0 < dy then (ymax - ya) / dy else if dy < 0 then (ymin - ya) / dy else 0)
      · simp [hmy]
      · simp [hmy]
    · unfold clip_ray
      simp only [lt_self_iff_false, ite_false, if_false]
      by_cases hmx : (if 0 < dx then (xmax - xa) / dx else if dx < 0 then (xmin - xa) / dx else 0)
          < (0 : ℚ)
      · have hnp : ¬ (0 : ℚ) <
            (if 0 < dx then (xmax - xa) / dx else if dx < 0 then (xmin - xa) / dx else 0) :=
          not_lt.mpr hmx.le
        simp [hmx, hnp]
      · simp [hmx]
  · intro hdx hdy hx hy
    rw [clip_ray_eq_min xmin xmax ymin ymax xa ya dx dy hdx hdy]
    rw [if_pos (lt_min hx hy)]
  · intro hdx hdy hle
    rw [clip_ray_eq_min xmin xmax ymin ymax xa ya dx dy hdx hdy]
    rw [if_neg]
    rcases hle with h | h
    · exact not_lt.mpr (le_trans (min_le_left _ _) h)
    · exact not_lt.mpr (le_trans (min_le_right _ _) h)

/-- Witness for C7 (amended): a concrete diagonal ray is clipped at the
minimum of its two positive per-axis distances, and a concrete axis-aligned
ray is dropped. -/
theorem c7_ray_clip_witness :
    clip_ray 0 1 0 1 (1/2) (1/2) 1 1 = some (1, 1) ∧
    clip_ray 0 1 0 1 (1/2) (1/2) (-1) 0 = none := by
  constructor
  · have h := (c7_ray_clip_amended 0 1 0 1 (1/2) (1/2) 1 1).2.1
      (by norm_num) (by norm_num) (by norm_num [axis_param]) (by norm_num [axis_param])
    rw [h]
    norm_num [axis_param]
  · exact (c7_ray_clip_amended 0 1 0 1 (1/2) (1/2) (-1) 0).1 (Or.inr rfl)

/-- The exact VTU text produced for the single-triangle Delaunay result
(pinned byte-for-byte by the repository test `trigen_write_vtu`). -/
def c8_actual_text : String :=
  "<?xml version=\"1.0\"?>\n<VTKFile type=\"UnstructuredGrid\" version=\"0.1\" byte_order=\"LittleEndian\">\n<UnstructuredGrid>\n<Piece NumberOfPoints=\"3\" NumberOfCells=\"1\">\n<Points>\n<DataArray type=\"Float64\" NumberOfComponents=\"3\" format=\"ascii\">\n0.0 0.0 0.0 1.0 0.0 0.0 0.0 1.0 0.0 \n</DataArray>\n</Points>\n<Cells>\n<DataArray type=\"Int32\" Name=\"connectivity\" format=\"ascii\">\n0 1 2 \n</DataArray>\n<DataArray type=\"Int32\" Name=\"offsets\" format=\"ascii\">\n3 \n</DataArray>\n<DataArray type=\"UInt8\" Name=\"types\" format=\"ascii\">\n5 \n</DataArray>\n</Cells>\n</Piece>\n</UnstructuredGrid>\n</VTKFile>\n"

/-- The VTU text asserted by the claim, whose point block omits the decimal
points (`"0 0 0 1 0 0 0 1 0 "`). -/
def c8_claimed_text : String :=
  "<?xml version=\"1.0\"?>\n<VTKFile type=\"UnstructuredGrid\" version=\"0.1\" byte_order=\"LittleEndian\">\n<UnstructuredGrid>\n<Piece NumberOfPoints=\"3\" NumberOfCells=\"1\">\n<Points>\n<DataArray type=\"Float64\" NumberOfComponents=\"3\" format=\"ascii\">\n0 0 0 1 0 0 0 1 0 \n</DataArray>\n</Points>\n<Cells>\n<DataArray type=\"Int32\" Name=\"connectivity\" format=\"ascii\">\n0 1 2 \n</DataArray>\n<DataArray type=\"Int32\" Name=\"offsets\" format=\"ascii\">\n3 \n</DataArray>\n<DataArray type=\"UInt8\" Name=\"types\" format=\"ascii\">\n5 \n</DataArray>\n</Cells>\n</Piece>\n</UnstructuredGrid>\n</VTKFile>\n"

set_option maxRecDepth 10000 in
/-- Counterexample to C8: the exporter does not produce the claimed text —
each coordinate is rendered with Rust `Debug` float formatting, so the point
block reads `0.0 0.0 0.0 1.0 0.0 0.0 0.0 1.0 0.0 `, not
`0 0 0 1 0 0 0 1 0 `. -/
theorem c8_export_counterexample :
    Trigen.write_vtu_buffer tri1_out ≠ .ok c8_claimed_text := by decide

set_option maxRecDepth 10000 in
/-- C8 amended: exporting the single-triangle Delaunay result yields exactly
the fixed XML text with the documented field order, point block
`"0.0 0.0 0.0 1.0 0.0 0.0 0.0 1.0 0.0 "`, connectivity `"0 1 2 "`, offsets
`"3 "`, cell type `"5 "`, and one trailing space per numeric token. -/
theorem c8_export_fixed_text :
    Trigen.write_vtu_buffer tri1_out = .ok c8_actual_text := by decide

/-- The facet scan accepts a list of representable arities all at least 3 and
returns the accumulated total. -/
theorem tet_facet_scan_ok (l : List ℕ) (t : ℕ) (h : ∀ f ∈ l, 3 ≤ f ∧ f ≤ I32_MAX) :
    tet_facet_scan l t = .ok (t + l.sum) := by
  induction l generalizing t with
  | nil => simp [tet_facet_scan]
  | cons f rest ih =>
    obtain ⟨h3, hle⟩ := h f (List.mem_cons_self f rest)
    have hrest : ∀ g ∈ rest, 3 ≤ g ∧ g ≤ I32_MAX := fun g hg => h g (List.mem_cons_of_mem f hg)
    have hnf : ¬ f < 3 := not_lt.mpr h3
    simp only [tet_facet_scan, hnf, ite_false, to_i32, hle, if_true, if_false]
    rw [ih (t + f) hrest]
    congr 1
    simp [List.sum_cons]
    omega

/-- The facet scan rejects a list that contains an arity below 3 (all
arities representable). -/
theorem tet_facet_scan_err (l : List ℕ) (t : ℕ) (hrep : ∀ f ∈ l, f ≤ I32_MAX)
    (h : ∃ f ∈ l, f < 3) : tet_facet_scan l t = .err "facet npoint must be ≥ 3" := by
  induction l generalizing t with
  | nil => simp at h
  | cons f rest ih =>
    by_cases h3 : f < 3
    · simp [tet_facet_scan, h3]
    · have hle : f ≤ I32_MAX := hrep f (List.mem_cons_self f rest)
      have hrest : ∀ g ∈ rest, g ≤ I32_MAX := fun g hg => hrep g (List.mem_cons_of_mem f hg)
      have hex : ∃ g ∈ rest, g < 3 := by
        rcases h with ⟨g, hg, hlt⟩
        rcases List.mem_cons.mp hg with rfl | hg'
        · exact absurd hlt h3
        · exact ⟨g, hg', hlt⟩
      simp only [tet_facet_scan, h3, ite_false, to_i32, hle, if_true, if_false]
      exact ih (t + f) hrest hex

/-- C9: construction rejects `npoint < 3` (2D) and `npoint < 4` (3D), a
declared segment count below 3 (2D), a declared facet count below 4 (3D) and
any declared facet arity below 3, all with a construction error; with valid
(representable) capacities and a successful native allocation it returns the
fresh builder state. -/
theorem c9_construction_validation :
    (∀ (npoint : ℕ) (ns nr nh : Option ℕ) (alloc : Bool), npoint < 3 →
        ∃ e, Trigen.new npoint ns nr nh alloc = .err e) ∧
    (∀ (npoint n : ℕ) (nr nh : Option ℕ) (alloc : Bool), n < 3 →
        ∃ e, Trigen.new npoint (some n) nr nh alloc = .err e) ∧
    (∀ (npoint : ℕ) (fnp : Option (List ℕ)) (nr nh : Option ℕ) (alloc : Bool), npoint < 4 →
        ∃ e, Tetgen.new npoint fnp nr nh alloc = .err e) ∧
    (∀ (npoint : ℕ) (fnp : List ℕ) (nr nh : Option ℕ) (alloc : Bool),
        npoint ≤ I32_MAX → fnp.length ≤ I32_MAX → fnp.length < 4 →
        ∃ e, Tetgen.new npoint (some fnp) nr nh alloc = .err e) ∧
    (∀ (npoint : ℕ) (fnp : List ℕ) (nr nh : Option ℕ) (alloc : Bool),
        npoint ≤ I32_MAX → fnp.length ≤ I32_MAX → (∀ f ∈ fnp, f ≤ I32_MAX) →
        (∃ f ∈ fnp, f < 3) →
        ∃ e, Tetgen.new npoint (some fnp) nr nh alloc = .err e) ∧
    (∀ (npoint : ℕ) (ns nr nh : Option ℕ),
        3 ≤ npoint → npoint ≤ I32_MAX →
        (∀ n ∈ ns, 3 ≤ n ∧ n ≤ I32_MAX) → (∀ n ∈ nr, n ≤ I32_MAX) → (∀ n ∈ nh, n ≤ I32_MAX) →
        Trigen.new npoint ns nr nh true
          = .ok ⟨npoint, ns, nr, nh, false, false, false, false⟩) ∧
    (∀ (npoint : ℕ) (fnp : Option (List ℕ)) (nr nh : Option ℕ),
        4 ≤ npoint → npoint ≤ I32_MAX →
        (∀ l ∈ fnp, 4 ≤ l.length ∧ l.length ≤ I32_MAX ∧ ∀ f ∈ l, 3 ≤ f ∧ f ≤ I32_MAX) →
        (∀ n ∈ nr, n ≤ I32_MAX) → (∀ n ∈ nh, n ≤ I32_MAX) →
        Tetgen.new npoint fnp nr nh true
          = .ok ⟨npoint, fnp, ((fnp.getD []).sum), 0, nr, nh,
                 false, false, false, false⟩) := by
  refine ⟨?_, ?_, ?_, ?_, ?_, ?_, ?_⟩
  · intro npoint ns nr nh alloc h
    exact ⟨"npoint must be ≥ 3", by simp [Trigen.new, h]⟩
  · intro npoint n nr nh alloc h
    by_cases h3 : npoint < 3
    · exact ⟨"npoint must be ≥ 3", by simp [Trigen.new, h3]⟩
    · exact ⟨"nsegment must be ≥ 3", by simp [Trigen.new, h3, h, Res.bind]⟩
  · intro npoint fnp nr nh alloc h
    exact ⟨"npoint must be ≥ 4", by simp [Tetgen.new, h]⟩
  · intro npoint fnp nr nh alloc hp hlen h4
    by_cases hp4 : npoint < 4
    · exact ⟨"npoint must be ≥ 4", by simp [Tetgen.new, hp4]⟩
    · refine ⟨"nfacet must be ≥ 4", ?_⟩
      simp only [Tetgen.new, hp4, ite_false, reqI32, to_i32, hp, if_true, hlen, h4, ite_true]
      rfl
  · intro npoint fnp nr nh alloc hp hlen hrep hex
    by_cases hp4 : npoint < 4
    · exact ⟨"npoint must be ≥ 4", by simp [Tetgen.new, hp4]⟩
    · by_cases h4 : fnp.length < 4
      · refine ⟨"nfacet must be ≥ 4", ?_⟩
        simp only [Tetgen.new, hp4, ite_false, reqI32, to_i32, hp, if_true, hlen, h4, ite_true]
        rfl
      · refine ⟨"facet npoint must be ≥ 3", ?_⟩
        simp only [Tetgen.new, hp4, ite_false, reqI32, to_i32, hp, if_true, hlen, h4, ite_false]
        rw [tet_facet_scan_err fnp 0 hrep hex]
        rfl
  · intro npoint ns nr nh h3 hle hns hnr hnh
    have h3' : ¬ npoint < 3 := by omega
    have hsc : (match ns with
        | some ns' => if ns' < 3 then (Res.err "nsegment must be ≥ 3" : Res Unit) else .ok ()
        | none => .ok ()) = .ok () := by
      cases ns with
      | none => rfl
      | some v =>
        have := hns v rfl
        simp [not_lt.mpr this.1]
    have hnsle : ns.getD 0 ≤ I32_MAX := by
      cases ns with
      | none => simp [I32_MAX]
      | some v => simpa using (hns v rfl).2
    have hnrle : nr.getD 0 ≤ I32_MAX := by
      cases nr with
      | none => simp [I32_MAX]
      | some v => simpa using hnr v rfl
    have hnhle : nh.getD 0 ≤ I32_MAX := by
      cases nh with
      | none => simp [I32_MAX]
      | some v => simpa using hnh v rfl
    simp only [Trigen.new, h3', ite_false, hsc, Res.bind, reqI32, to_i32, hle,
      hnsle, hnrle, hnhle, if_true, ite_true]
  · intro npoint fnp nr nh h4 hle hfacets hnr hnh
    have h4' : ¬ npoint < 4 := by omega
    have hnrle : nr.getD 0 ≤ I32_MAX := by
      cases nr with
      | none => simp [I32_MAX]
      | some v => simpa using hnr v rfl
    have hnhle : nh.getD 0 ≤ I32_MAX := by
      cases nh with
      | none => simp [I32_MAX]
      | some v => simpa using hnh v rfl
    cases fnp with
    | none =>
      simp only [Tetgen.new, h4', ite_false, reqI32, to_i32, hle, if_true, ite_true,
        Res.bind, hnrle, hnhle]
      simp
    | some facets =>
      obtain ⟨hl4, hlle, harr⟩ := hfacets facets rfl
      have hl4' : ¬ facets.length < 4 := by omega
      simp only [Tetgen.new, h4', ite_false, reqI32, to_i32, hle, if_true, hlle, hl4',
        ite_true, ite_false]
      rw [tet_facet_scan_ok facets 0 harr]
      simp only [Res.bind, reqI32, to_i32, hnrle, hnhle, if_true, ite_true]
      simp

/-- Witness for C9: concrete constructions — two rejected, two accepted. -/
theorem c9_construction_witness :
    (∃ e, Trigen.new 2 none none none true = .err e) ∧
    (∃ e, Tetgen.new 4 (some [3, 3, 2, 3]) none none true = .err e) ∧
    Trigen.new 3 (some 3) none none true
      = .ok ⟨3, some 3, none, none, false, false, false, false⟩ ∧
    Tetgen.new 4 (some [3, 3, 3, 3]) (some 1) none true
      = .ok ⟨4, some [3, 3, 3, 3], 12, 0, some 1, none, false, false, false, false⟩ := by
  refine ⟨?_, ?_, ?_, ?_⟩
  · exact c9_construction_validation.1 2 none none none true (by decide)
  · exact c9_construction_validation.2.2.2.2.1 4 [3, 3, 2, 3] none none true (by decide)
      (by decide) (by decide) ⟨2, by decide, by decide⟩
  · have h := c9_construction_validation.2.2.2.2.2.1 3 (some 3) none none (by decide)
      (by decide) (by intro n hn; cases hn; exact ⟨by decide, by decide⟩)
      (by intro n hn; cases hn) (by intro n hn; cases hn)
    exact h
  · have h := c9_construction_validation.2.2.2.2.2.2 4 (some [3, 3, 3, 3]) (some 1) none
      (by decide) (by decide)
      (by intro l hl; cases hl; exact ⟨by decide, by decide, by decide⟩)
      (by intro n hn; cases hn; decide) (by intro n hn; cases hn)
    simpa using h

/-- C10: a successful `set_facet_marker` returns the builder state unchanged
(it touches no completion-tracker field), and every generation call takes the
builder by shared reference and leaves all declared capacities and
completion flags unchanged whether it succeeds or fails, so a failed
generation can be retried without re-entering input. -/
theorem c10_generation_frame :
    (∀ (s : TetgenState) (fnp : List ℕ) (index : ℕ) (marker : ℤ) (s' : TetgenState),
        s.facet_npoint = some fnp → Tetgen.set_facet_marker s index marker = .ok s' →
        s' = s) ∧
    (∀ (s : TrigenState) (st : ℤ), (Trigen.generate_delaunay s st).2 = s) ∧
    (∀ (s : TrigenState) (st : ℤ), (Trigen.generate_voronoi s st).2 = s) ∧
    (∀ (s : TrigenState) (st : ℤ), (Trigen.generate_mesh s st).2 = s) ∧
    (∀ (s : TetgenState) (st : ℤ), (Tetgen.generate_delaunay s st).2 = s) ∧
    (∀ (s : TetgenState) (st : ℤ), (Tetgen.generate_mesh s st).2 = s) := by
  refine ⟨?_, fun s st => rfl, fun s st => rfl, fun s st => rfl, fun s st => rfl,
    fun s st => rfl⟩
  intro s fnp index marker s' hf h
  exact ((Tetgen.set_facet_marker_ok_iff s fnp index marker s' hf).mp h).2.2

/-- Witness for C10: a concrete marker write returns the very same state. -/
theorem c10_generation_frame_witness :
    Tetgen.set_facet_marker exTet 0 (-10) = .ok exTet ∧
    (Trigen.generate_mesh exTri 0).2 = exTri := by
  refine ⟨?_, c10_generation_frame.2.2.2.1 exTri 0⟩
  have h : ∃ s', Tetgen.set_facet_marker exTet 0 (-10) = .ok s' := ⟨exTet, by decide⟩
  obtain ⟨s', hs⟩ := h
  have := c10_generation_frame.1 exTet [3, 3, 3, 3] 0 (-10) s' (by decide) hs
  rw [this] at hs
  exact hs

end Tritet
